import Mathlib

/-!
Verification of the Forge Theory suite decay core: the universal decay
engine `ForgeCalculator` (src/core/ForgeCalculator.js) and the caffeine
tracker `CaffeineForge` (src/domains/caffeine-forge-enhanced.js).

Modelling conventions: JavaScript numbers are modelled as real numbers; a
thrown `Error` is `Except.error` carrying the thrown message; timestamps
are real-valued milliseconds, as JS `Date` arithmetic yields; the tracker
object is a record threaded explicitly through its methods.
-/

noncomputable section

namespace Forge

/-- Result type for `ForgeCalculator.timeToReach`: either a finite number of
hours or the JS `Infinity` returned when the target is nonpositive. -/
inductive TimeToReachResult where
  | finite (hours : ℝ)
  | unbounded

namespace ForgeCalculator

/-- `ForgeCalculator.calculate(initial, rate, time)`: validates that all three
arguments are nonnegative, throwing on the first violation, then returns
`initial * Math.exp(-rate * time)`. -/
def calculate (initial rate time : ℝ) : Except String ℝ :=
  if initial < 0 then .error ("Initial value cannot be negative")
  else if rate < 0 then .error ("Rate constant cannot be negative")
  else if time < 0 then .error ("Time cannot be negative")
  else .ok (initial * Real.exp (-rate * time))

/-- `ForgeCalculator.rateToHalfLife(rate)`: `Math.LN2 / rate`, throwing for
`rate <= 0`. -/
def rateToHalfLife (rate : ℝ) : Except String ℝ :=
  if rate ≤ 0 then .error ("Rate constant must be positive")
  else .ok (Real.log 2 / rate)

/-- `ForgeCalculator.halfLifeToRate(halfLife)`: `Math.LN2 / halfLife`,
throwing for `halfLife <= 0`. -/
def halfLifeToRate (halfLife : ℝ) : Except String ℝ :=
  if halfLife ≤ 0 then .error ("Half-life must be positive")
  else .ok (Real.log 2 / halfLife)

/-- `ForgeCalculator.timeToReach(initial, target, rate)`: the three checks in
source order — `target >= initial` returns 0, then `target <= 0` returns
`Infinity`, then `rate <= 0` throws, else `Math.log(initial/target)/rate`. -/
def timeToReach (initial target rate : ℝ) : Except String TimeToReachResult :=
  if initial ≤ target then .ok (.finite 0)
  else if target ≤ 0 then .ok .unbounded
  else if rate ≤ 0 then .error ("Rate constant must be positive")
  else .ok (.finite (Real.log (initial / target) / rate))

/-- One element of the array built by `ForgeCalculator.generateCurve`. -/
structure CurvePoint where
  time : ℝ
  value : ℝ
  percent : ℝ
  halfLives : ℝ

/-- The body of one iteration of the `generateCurve` loop: `time = i * dt`,
`value = this.calculate(initial, rate, time)` (may throw),
`percent = (value / initial) * 100`, and
`halfLives = time / this.rateToHalfLife(rate)` (may throw). -/
def curvePoint (initial rate dt : ℝ) (i : ℕ) : Except String CurvePoint := do
  let time := (i : ℝ) * dt
  let value ← calculate initial rate time
  let hl ← rateToHalfLife rate
  pure ⟨time, value, value / initial * 100, time / hl⟩

/-- The `for (let i = 0; i <= steps; i++)` loop of `generateCurve`, pushing
points in order and aborting at the first thrown error. -/
def curveLoop (initial rate dt : ℝ) : List ℕ → Except String (List CurvePoint)
  | [] => pure []
  | i :: rest => do
    let p ← curvePoint initial rate dt i
    let ps ← curveLoop initial rate dt rest
    pure (p :: ps)

/-- `ForgeCalculator.generateCurve(initial, rate, duration, steps)` with
`dt = duration / steps` and indices `0, 1, ..., steps`. -/
def generateCurve (initial rate duration : ℝ) (steps : ℕ) :
    Except String (List CurvePoint) :=
  curveLoop initial rate (duration / (steps : ℝ)) (List.range (steps + 1))

/-- The closed form of the curve point at index `i` on the successful path
(used to state what `generateCurve` returns). -/
def curveSample (initial rate dt : ℝ) (i : ℕ) : CurvePoint :=
  ⟨(i : ℝ) * dt, initial * Real.exp (-rate * ((i : ℝ) * dt)),
    initial * Real.exp (-rate * ((i : ℝ) * dt)) / initial * 100,
    (i : ℝ) * dt / (Real.log 2 / rate)⟩

end ForgeCalculator

/-- One entry of `state.caffeineHistory` in caffeine-forge-enhanced.js: the
dose in mg, the consumption time as a millisecond timestamp, and the source
label. (The `timestamp: Date.now()` audit field plays no role in any
computation and is omitted.) -/
structure DoseEvent where
  dose : ℝ
  time : ℝ
  source : String

/-- The `this.state` record of `CaffeineForge`, restricted to the fields the
class reads: body weight (kg), metabolism profile string, the event log, the
cached current level, and the derived `rateConstant` / `halfLife`. -/
structure CaffeineState where
  bodyWeight : ℝ
  metabolismRate : String
  caffeineHistory : List DoseEvent
  currentLevel : ℝ
  rateConstant : ℝ
  halfLife : ℝ

/-- A `CaffeineForge` instance: its `this.state` plus the
`this.volumeDistribution` field stored on the object itself. -/
structure CaffeineForge where
  state : CaffeineState
  volumeDistribution : ℝ

namespace CaffeineForge

/-- `CONSTANTS.RATE_TYPICAL` in caffeine-forge-enhanced.js. -/
def RATE_TYPICAL : ℝ := 0.1386

/-- `CONSTANTS.RATE_FAST`. -/
def RATE_FAST : ℝ := 0.3466

/-- `CONSTANTS.RATE_SLOW`. -/
def RATE_SLOW : ℝ := 0.0693

/-- `CONSTANTS.VD_PER_KG`: volume of distribution per kg of body weight. -/
def VD_PER_KG : ℝ := 0.6

/-- `CONSTANTS.THRESHOLD_SLEEP`. -/
def THRESHOLD_SLEEP : ℝ := 10

/-- The own entries of the `CONSTANTS.SOURCES` object literal: the static
source table, mg per serving. This is only the own-property part of the JS
lookup; the full property access is `sourceLookup` below, which also
consults the prototype chain. -/
def SOURCES (s : String) : Option ℝ :=
  if s = "espresso" then some 64
  else if s = "coffee" then some 95
  else if s = "tea_black" then some 47
  else if s = "tea_green" then some 28
  else if s = "energy_drink" then some 80
  else if s = "cola" then some 34
  else if s = "dark_chocolate" then some 12
  else none

/-- The property names a bare JS object literal inherits: the
`Object.prototype` methods of ECMA-262, the `__proto__` accessor, and the
Annex B legacy accessors present in all mainstream engines. Accessing
`CONSTANTS.SOURCES[name]` for one of these yields the inherited function
(or, for `__proto__`, the prototype object) — a truthy non-number — rather
than `undefined`. -/
def objectPrototypeNames : List String :=
  ["constructor", "hasOwnProperty", "isPrototypeOf", "propertyIsEnumerable",
   "toLocaleString", "toString", "valueOf", "__proto__", "__defineGetter__",
   "__defineSetter__", "__lookupGetter__", "__lookupSetter__"]

/-- What the JS property access `this.CONSTANTS.SOURCES[source]` can
produce: an own entry of the object literal (its mg-per-serving number), a
truthy non-number inherited from `Object.prototype`, or `undefined`. -/
inductive SourceLookup where
  | mg (dosePerServing : ℝ)
  | protoFn
  | absent

/-- `this.CONSTANTS.SOURCES[source]` as JS evaluates it: own entries shadow
the prototype; a name inherited from `Object.prototype` yields the
inherited function; every other name yields `undefined`. -/
def sourceLookup (source : String) : SourceLookup :=
  match SOURCES source with
  | some d => .mg d
  | none =>
    if source ∈ objectPrototypeNames then .protoFn else .absent

/-- The rate constant chosen by the `switch` in `updateRateConstant`:
`fast`, `slow`, and everything else (including `typical`) via the default. -/
def profileRate (m : String) : ℝ :=
  if m = "fast" then RATE_FAST
  else if m = "slow" then RATE_SLOW
  else RATE_TYPICAL

/-- The half-life chosen by the same `switch`. -/
def profileHalfLife (m : String) : ℝ :=
  if m = "fast" then 2
  else if m = "slow" then 10
  else 5

/-- `this.updateRateConstant()`: overwrite `state.rateConstant` and
`state.halfLife` from the current metabolism profile. -/
def updateRateConstant (s : CaffeineState) : CaffeineState :=
  { s with rateConstant := profileRate s.metabolismRate,
           halfLife := profileHalfLife s.metabolismRate }

/-- `new CaffeineForge()` with no user config: body weight 70 kg, typical
metabolism, empty history, zero cached level; the constructor then calls
`updateRateConstant()` and sets
`volumeDistribution = bodyWeight * VD_PER_KG`. -/
def init : CaffeineForge :=
  let s1 := updateRateConstant
    { bodyWeight := 70, metabolismRate := "typical", caffeineHistory := [],
      currentLevel := 0, rateConstant := 0, halfLife := 0 }
  { state := s1, volumeDistribution := s1.bodyWeight * VD_PER_KG }

/-- `addDose(dose, time, source)`: build the event and push it onto
`state.caffeineHistory`; no validation of any kind is performed; returns the
event. -/
def addDose (f : CaffeineForge) (dose time : ℝ) (source : String) :
    CaffeineForge × DoseEvent :=
  let event : DoseEvent := ⟨dose, time, source⟩
  ({ f with state :=
      { f.state with caffeineHistory := f.state.caffeineHistory ++ [event] } },
   event)

/-- `addBySource(source, servings, time)`: `const dosePerServing =
this.CONSTANTS.SOURCES[source]` is the property access `sourceLookup`;
`if (!dosePerServing) throw` rejects only falsy results — `undefined`, or a
zero table entry — before anything is appended. A value inherited from
`Object.prototype` (e.g. for `source = "toString"`) is truthy and passes
the check; `dosePerServing * servings` is then the JS `NaN` (a function
times a number), and `addDose(NaN, time, source)` appends it. `NaN` has no
counterpart in `ℝ`, so the model takes the dose recorded on that path as
the explicit argument `nanProduct`; theorems about the path quantify over
every value of it, so nothing depends on the stand-in. The first component
of the result is the tracker after the call: on a throw it is the unchanged
tracker, matching the JS `throw` that precedes any mutation. -/
def addBySource (f : CaffeineForge) (source : String) (servings time : ℝ)
    (nanProduct : ℝ) : CaffeineForge × Except String DoseEvent :=
  match sourceLookup source with
  | .absent => (f, .error ("Unknown caffeine source: " ++ source))
  | .mg dosePerServing =>
    if dosePerServing = 0 then
      (f, .error ("Unknown caffeine source: " ++ source))
    else
      let r := f.addDose (dosePerServing * servings) time source
      (r.1, .ok r.2)
  | .protoFn =>
    let r := f.addDose nanProduct time source
    (r.1, .ok r.2)

/-- The `for (const event of this.state.caffeineHistory)` loop of
`getCurrentLevel`: `hoursElapsed = (now - event.time) / 3600000`; events
with `hoursElapsed >= 0` contribute
`ForgeCalculator.calculate(event.dose / vd, k, hoursElapsed)` (which may
throw, aborting the whole call); future events are skipped. -/
def getCurrentLevelAux (vd k now : ℝ) : List DoseEvent → ℝ → Except String ℝ
  | [], total => pure total
  | e :: rest, total =>
    if 0 ≤ (now - e.time) / 3600000 then do
      let remaining ← ForgeCalculator.calculate (e.dose / vd) k
        ((now - e.time) / 3600000)
      getCurrentLevelAux vd k now rest (total + remaining)
    else getCurrentLevelAux vd k now rest total

/-- `getCurrentLevel(currentTime)`: sum the per-event contributions, then
store the total in `state.currentLevel` and return it. -/
def getCurrentLevel (f : CaffeineForge) (now : ℝ) :
    Except String (CaffeineForge × ℝ) := do
  let total ← getCurrentLevelAux f.volumeDistribution f.state.rateConstant now
    f.state.caffeineHistory 0
  pure ({ f with state := { f.state with currentLevel := total } }, total)

/-- `getBloodLevel(dose, hoursElapsed)`: the stateless single-dose query
`ForgeCalculator.calculate(dose / volumeDistribution, rateConstant,
hoursElapsed)`. -/
def getBloodLevel (f : CaffeineForge) (dose hoursElapsed : ℝ) :
    Except String ℝ :=
  ForgeCalculator.calculate (dose / f.volumeDistribution)
    f.state.rateConstant hoursElapsed

/-- The record returned by `getTimeUntilSleep`. `hours` is the JS number
(possibly `Infinity`); `sleepTime` is `none` exactly when that number is
`Infinity`, where JS builds an Invalid Date from `fromTime + Infinity`. -/
structure SleepInfo where
  hours : TimeToReachResult
  sleepTime : Option ℝ
  canSleepNow : Bool
  currentLevel : ℝ

/-- The `sleepThreshold || CONSTANTS.THRESHOLD_SLEEP` default of
`getTimeUntilSleep`: JS `||` replaces a missing argument and the falsy
number 0 alike with the 10 mg default. -/
def sleepThresholdOf : Option ℝ → ℝ
  | none => THRESHOLD_SLEEP
  | some x => if x = 0 then THRESHOLD_SLEEP else x

/-- `getTimeUntilSleep(sleepThreshold, fromTime)`. Computes the current
level (which may throw), answers immediately when it is at or below the
threshold, else delegates to `ForgeCalculator.timeToReach`. -/
def getTimeUntilSleep (f : CaffeineForge) (sleepThreshold : Option ℝ)
    (fromTime : ℝ) : Except String (CaffeineForge × SleepInfo) := do
  let threshold := sleepThresholdOf sleepThreshold
  let r ← f.getCurrentLevel fromTime
  let f1 := r.1
  let currentLevel := r.2
  if currentLevel ≤ threshold then
    pure (f1, ⟨.finite 0, some fromTime, true, currentLevel⟩)
  else do
    let t ← ForgeCalculator.timeToReach currentLevel threshold
      f1.state.rateConstant
    match t with
    | .finite hours =>
      pure (f1, ⟨.finite hours, some (fromTime + hours * 3600000), false,
        currentLevel⟩)
    | .unbounded => pure (f1, ⟨.unbounded, none, false, currentLevel⟩)

/-- A partial update passed to `updateConfig`, restricted to the two fields
whose presence the method tests. A field is `some v` when the update object
carries it. -/
structure ConfigUpdate where
  bodyWeight : Option ℝ := none
  metabolismRate : Option String := none

/-- `updateConfig(config)`: `Object.assign(this.state, config)` merges the
given fields unconditionally; then `if (config.bodyWeight)` — a JS
truthiness test, false for an absent field and for the number 0 —
recomputes `volumeDistribution` from the new weight, and
`if (config.metabolismRate)` — false for an absent field and for the empty
string — calls `updateRateConstant()`. -/
def updateConfig (f : CaffeineForge) (c : ConfigUpdate) : CaffeineForge :=
  let s1 := { f.state with
    bodyWeight := c.bodyWeight.getD f.state.bodyWeight,
    metabolismRate := c.metabolismRate.getD f.state.metabolismRate }
  let v1 := match c.bodyWeight with
    | some bw => if bw = 0 then f.volumeDistribution else bw * VD_PER_KG
    | none => f.volumeDistribution
  let s2 := match c.metabolismRate with
    | some m => if m = "" then s1 else updateRateConstant s1
    | none => s1
  { state := s2, volumeDistribution := v1 }

/-- The blob built by `exportState()` and consumed by `importState(blob)`:
a version tag, the full tracker state, and the export timestamp. Since the
exported `state` carries every field, the JS spread merge
`{...this.state, ...savedState.state}` in `importState` yields exactly
`savedState.state`. -/
structure SavedState where
  version : String
  state : CaffeineState
  timestamp : ℝ

/-- `exportState()`. -/
def exportState (f : CaffeineForge) (now : ℝ) : SavedState :=
  ⟨"1.0", f.state, now⟩

/-- `importState(savedState)`: only when `savedState.version === '1.0'` does
anything happen — the state is replaced, `updateRateConstant()` reruns, and
`volumeDistribution` is recomputed; any other version tag leaves the tracker
untouched. -/
def importState (f : CaffeineForge) (saved : SavedState) : CaffeineForge :=
  if saved.version = "1.0" then
    let s := updateRateConstant saved.state
    { state := s, volumeDistribution := s.bodyWeight * VD_PER_KG }
  else f

/-- One entry of the schedule built by `optimizeDosing`. -/
structure ScheduleEntry where
  time : ℝ
  dose : ℝ
  reason : String

/-- The `while (currentTime < duration)` loop of `optimizeDosing`, given an
explicit iteration budget: each pass appends a maintenance dose at
`currentTime` and advances by `redoseInterval`. `none` means the budget ran
out with the loop condition still true — the JS loop is still running after
that many iterations. -/
def dosingLoop (redoseInterval duration boostDose : ℝ) :
    ℕ → ℝ → List ScheduleEntry → Option (List ScheduleEntry)
  | 0, currentTime, schedule =>
    if currentTime < duration then none else some schedule
  | fuel + 1, currentTime, schedule =>
    if currentTime < duration then
      dosingLoop redoseInterval duration boostDose fuel
        (currentTime + redoseInterval)
        (schedule ++ [⟨currentTime, boostDose, "Maintenance dose"⟩])
    else some schedule

/-- `optimizeDosing(targetLevel, duration, maxDose)`: initial dose
`min(targetLevel * volumeDistribution, maxDose)` at time 0; redose interval
computed once as `timeToReach(initialConc, 0.7 * targetLevel, k)` (which may
throw); then the maintenance-dose loop. When `timeToReach` returns the JS
`Infinity`, `currentTime` starts at `Infinity` and the loop body never runs,
leaving just the initial entry. -/
def optimizeDosing (f : CaffeineForge) (targetLevel duration maxDose : ℝ)
    (fuel : ℕ) : Except String (Option (List ScheduleEntry)) :=
  let targetConcentration := targetLevel
  let initialDose := min (targetConcentration * f.volumeDistribution) maxDose
  let schedule0 : List ScheduleEntry :=
    [⟨0, initialDose, "Initial dose to reach target"⟩]
  let redoseThreshold := targetConcentration * 0.7
  let initialConc := initialDose / f.volumeDistribution
  match ForgeCalculator.timeToReach initialConc redoseThreshold
      f.state.rateConstant with
  | .error e => .error e
  | .ok .unbounded => .ok (some schedule0)
  | .ok (.finite redoseInterval) =>
    let boostDose :=
      min ((targetConcentration - redoseThreshold) * f.volumeDistribution)
        maxDose
    .ok (dosingLoop redoseInterval duration boostDose fuel redoseInterval
      schedule0)

/-- Stated from the spec, for the refinement claim about `getCurrentLevel`:
the superposition sum over exactly the logged events whose `occurredAt` is
at or before the query time, each contributing its independent decay
`(amount / distributionVolume) * exp(-k * elapsedHours)`. -/
def specSuperpositionLevel (vd k now : ℝ) (events : List DoseEvent) : ℝ :=
  ((events.filter fun e => decide (e.time ≤ now)).map
    fun e => e.dose / vd * Real.exp (-k * ((now - e.time) / 3600000))).sum

/-- The derived-state invariant of the spec: `rateConstant` agrees with the
current metabolism profile and `volumeDistribution` with the current body
weight. -/
def Consistent (f : CaffeineForge) : Prop :=
  f.state.rateConstant = profileRate f.state.metabolismRate ∧
  f.volumeDistribution = f.state.bodyWeight * VD_PER_KG

/-- The two-dose scenario of the spec: a fresh default tracker after
`addDose(100, t0)` and `addDose(100, t0 + 4h)`, with `t0 = 0` and times in
milliseconds (4 hours = 14400000 ms). -/
def twoDoseForge : CaffeineForge :=
  ((init.addDose 100 0 "coffee").1.addDose 100 14400000 "coffee").1

end CaffeineForge

/-! ### Helper lemmas -/

namespace ForgeCalculator

theorem calculate_ok {initial rate time : ℝ} (hi : 0 ≤ initial)
    (hr : 0 ≤ rate) (ht : 0 ≤ time) :
    calculate initial rate time = .ok (initial * Real.exp (-rate * time)) := by
  unfold calculate
  rw [if_neg (not_lt.mpr hi), if_neg (not_lt.mpr hr), if_neg (not_lt.mpr ht)]

theorem rateToHalfLife_ok {rate : ℝ} (hr : 0 < rate) :
    rateToHalfLife rate = .ok (Real.log 2 / rate) := by
  unfold rateToHalfLife
  rw [if_neg (not_le.mpr hr)]

theorem halfLifeToRate_ok {halfLife : ℝ} (h : 0 < halfLife) :
    halfLifeToRate halfLife = .ok (Real.log 2 / halfLife) := by
  unfold halfLifeToRate
  rw [if_neg (not_le.mpr h)]

end ForgeCalculator

theorem elapsed_nonneg_iff (now t : ℝ) :
    0 ≤ (now - t) / 3600000 ↔ t ≤ now := by
  rw [div_nonneg_iff]
  constructor
  · rintro (⟨h, -⟩ | ⟨-, h⟩)
    · linarith
    · norm_num at h
  · intro h
    exact Or.inl ⟨by linarith, by norm_num⟩

namespace CaffeineForge

theorem init_state_history : init.state.caffeineHistory = [] := rfl

theorem init_state_rate : init.state.rateConstant = RATE_TYPICAL := rfl

theorem init_vd : init.volumeDistribution = 70 * VD_PER_KG := rfl

end CaffeineForge

@[simp] theorem ok_bind {ε α β : Type} (a : α) (f : α → Except ε β) :
    (Except.ok a >>= f : Except ε β) = f a := rfl

@[simp] theorem error_bind {ε α β : Type} (e : ε) (f : α → Except ε β) :
    (Except.error e >>= f : Except ε β) = .error e := rfl

@[simp] theorem pure_eq_ok {ε α : Type} (a : α) :
    (pure a : Except ε α) = .ok a := rfl

namespace CaffeineForge

theorem getCurrentLevelAux_ok (vd k now : ℝ) (hv : 0 < vd) (hk : 0 ≤ k) :
    ∀ l : List DoseEvent, (∀ e ∈ l, 0 ≤ e.dose) → ∀ acc : ℝ,
      getCurrentLevelAux vd k now l acc =
        .ok (acc + specSuperpositionLevel vd k now l) := by
  intro l
  induction l with
  | nil =>
    intro _ acc
    simp [getCurrentLevelAux, specSuperpositionLevel]
  | cons e rest ih =>
    intro hd acc
    have hdose : 0 ≤ e.dose := hd e (List.mem_cons_self e rest)
    have hrest : ∀ x ∈ rest, 0 ≤ x.dose :=
      fun x hx => hd x (List.mem_cons_of_mem e hx)
    by_cases hc : 0 ≤ (now - e.time) / 3600000
    · rw [getCurrentLevelAux, if_pos hc,
        ForgeCalculator.calculate_ok (div_nonneg hdose hv.le) hk hc, ok_bind,
        ih hrest]
      have hmem : e.time ≤ now := (elapsed_nonneg_iff now e.time).mp hc
      simp [specSuperpositionLevel, List.filter_cons, hmem, add_assoc]
    · rw [getCurrentLevelAux, if_neg hc, ih hrest]
      have hmem : ¬e.time ≤ now :=
        fun h => hc ((elapsed_nonneg_iff now e.time).mpr h)
      simp [specSuperpositionLevel, List.filter_cons, hmem]

end CaffeineForge

/-! ### The claims -/

/-- C1: for every tracker state whose logged doses are nonnegative (the
data-model invariant on `DoseEvent.amount`), with the configured rate
constant nonnegative and distribution volume positive, `getCurrentLevel(t)`
returns exactly the superposition sum over the events with
`occurredAt ≤ t` of `decay(amount / distributionVolume, k, t - occurredAt)`
— future events contribute nothing — and in the two-doses-of-100mg-four-
hours-apart scenario the level at the second dose timestamp is exactly
`getBloodLevel(100, 4) + getBloodLevel(100, 0)`. -/
theorem c1_getCurrentLevel_superposition (f : CaffeineForge) (now : ℝ)
    (hd : ∀ e ∈ f.state.caffeineHistory, 0 ≤ e.dose)
    (hk : 0 ≤ f.state.rateConstant) (hv : 0 < f.volumeDistribution) :
    f.getCurrentLevel now =
      .ok ({ f with state := { f.state with
          currentLevel := CaffeineForge.specSuperpositionLevel
            f.volumeDistribution f.state.rateConstant now
            f.state.caffeineHistory } },
        CaffeineForge.specSuperpositionLevel f.volumeDistribution
          f.state.rateConstant now f.state.caffeineHistory) ∧
    (∀ a b : ℝ,
      CaffeineForge.twoDoseForge.getBloodLevel 100 4 = .ok a →
      CaffeineForge.twoDoseForge.getBloodLevel 100 0 = .ok b →
      (CaffeineForge.twoDoseForge.getCurrentLevel 14400000).map Prod.snd =
        .ok (a + b)) := by
  have main : ∀ (g : CaffeineForge) (t : ℝ),
      (∀ e ∈ g.state.caffeineHistory, 0 ≤ e.dose) →
      0 ≤ g.state.rateConstant → 0 < g.volumeDistribution →
      g.getCurrentLevel t =
        .ok ({ g with state := { g.state with
            currentLevel := CaffeineForge.specSuperpositionLevel
              g.volumeDistribution g.state.rateConstant t
              g.state.caffeineHistory } },
          CaffeineForge.specSuperpositionLevel g.volumeDistribution
            g.state.rateConstant t g.state.caffeineHistory) := by
    intro g t hgd hgk hgv
    unfold CaffeineForge.getCurrentLevel
    rw [CaffeineForge.getCurrentLevelAux_ok g.volumeDistribution
      g.state.rateConstant t hgv hgk g.state.caffeineHistory hgd 0, ok_bind]
    simp [zero_add]
  refine ⟨main f now hd hk hv, ?_⟩
  intro a b ha hb
  have hhist : CaffeineForge.twoDoseForge.state.caffeineHistory =
      [⟨100, 0, "coffee"⟩, ⟨100, 14400000, "coffee"⟩] := rfl
  have hvd : CaffeineForge.twoDoseForge.volumeDistribution =
      70 * CaffeineForge.VD_PER_KG := rfl
  have hk2 : CaffeineForge.twoDoseForge.state.rateConstant =
      CaffeineForge.RATE_TYPICAL := rfl
  have hcalc4 : CaffeineForge.twoDoseForge.getBloodLevel 100 4 =
      .ok (100 / (70 * CaffeineForge.VD_PER_KG) *
        Real.exp (-CaffeineForge.RATE_TYPICAL * 4)) := by
    show ForgeCalculator.calculate (100 / (70 * CaffeineForge.VD_PER_KG))
      CaffeineForge.RATE_TYPICAL 4 = _
    rw [ForgeCalculator.calculate_ok
      (by norm_num [CaffeineForge.VD_PER_KG])
      (by norm_num [CaffeineForge.RATE_TYPICAL]) (by norm_num)]
  have hcalc0 : CaffeineForge.twoDoseForge.getBloodLevel 100 0 =
      .ok (100 / (70 * CaffeineForge.VD_PER_KG) *
        Real.exp (-CaffeineForge.RATE_TYPICAL * 0)) := by
    show ForgeCalculator.calculate (100 / (70 * CaffeineForge.VD_PER_KG))
      CaffeineForge.RATE_TYPICAL 0 = _
    rw [ForgeCalculator.calculate_ok
      (by norm_num [CaffeineForge.VD_PER_KG])
      (by norm_num [CaffeineForge.RATE_TYPICAL]) (by norm_num)]
  rw [hcalc4] at ha
  rw [hcalc0] at hb
  obtain rfl : a = 100 / (70 * CaffeineForge.VD_PER_KG) *
      Real.exp (-CaffeineForge.RATE_TYPICAL * 4) := (Except.ok.inj ha).symm
  obtain rfl : b = 100 / (70 * CaffeineForge.VD_PER_KG) *
      Real.exp (-CaffeineForge.RATE_TYPICAL * 0) := (Except.ok.inj hb).symm
  have hd2 : ∀ e ∈ CaffeineForge.twoDoseForge.state.caffeineHistory,
      0 ≤ e.dose := by
    rw [hhist]
    intro e he
    rcases List.mem_cons.mp he with h | h
    · rw [h]; norm_num
    · rcases List.mem_cons.mp h with h2 | h2
      · rw [h2]; norm_num
      · exact absurd h2 (List.not_mem_nil e)
  have hk2p : 0 ≤ CaffeineForge.twoDoseForge.state.rateConstant := by
    rw [hk2]; norm_num [CaffeineForge.RATE_TYPICAL]
  have hv2 : 0 < CaffeineForge.twoDoseForge.volumeDistribution := by
    rw [hvd]; norm_num [CaffeineForge.VD_PER_KG]
  rw [main CaffeineForge.twoDoseForge 14400000 hd2 hk2p hv2]
  show Except.ok (CaffeineForge.specSuperpositionLevel
    CaffeineForge.twoDoseForge.volumeDistribution
    CaffeineForge.twoDoseForge.state.rateConstant 14400000
    CaffeineForge.twoDoseForge.state.caffeineHistory) = _
  rw [hhist, hvd, hk2]
  have m1 : ((0 : ℝ) ≤ 14400000) := by norm_num
  have m2 : ((14400000 : ℝ) ≤ 14400000) := le_refl _
  simp only [CaffeineForge.specSuperpositionLevel, List.filter_cons, m1, m2,
    decide_true_eq_true, List.filter_nil, List.map_cons, List.map_nil,
    List.sum_cons, List.sum_nil]
  norm_num

/-- Witness for C1: the fresh default tracker with an empty log at query
time 0 satisfies the hypotheses, and its current level is 0. -/
theorem c1_witness :
    (∀ e ∈ CaffeineForge.init.state.caffeineHistory, 0 ≤ e.dose) ∧
    0 ≤ CaffeineForge.init.state.rateConstant ∧
    0 < CaffeineForge.init.volumeDistribution ∧
    CaffeineForge.init.getCurrentLevel 0 = .ok (CaffeineForge.init, 0) := by
  have h1 : ∀ e ∈ CaffeineForge.init.state.caffeineHistory, 0 ≤ e.dose := by
    rw [CaffeineForge.init_state_history]
    intro e he
    exact absurd he (List.not_mem_nil e)
  have h2 : 0 ≤ CaffeineForge.init.state.rateConstant := by
    rw [CaffeineForge.init_state_rate]
    norm_num [CaffeineForge.RATE_TYPICAL]
  have h3 : 0 < CaffeineForge.init.volumeDistribution := by
    rw [CaffeineForge.init_vd]
    norm_num [CaffeineForge.VD_PER_KG]
  have h4 := (c1_getCurrentLevel_superposition CaffeineForge.init 0 h1 h2 h3).1
  refine ⟨h1, h2, h3, ?_⟩
  rw [h4]
  rfl

/-- C2: `timeToReach(initial, target, rate)` returns 0 whenever
`target ≥ initial`; otherwise returns the JS `Infinity` whenever
`target ≤ 0`; otherwise (`initial > target > 0`) it throws exactly when
`rate ≤ 0` and returns `ln(initial/target)/rate` when `rate > 0`. The
checks apply in this order, so `rate ≤ 0` raises no error when one of the
first two branches applies. -/
theorem c2_timeToReach_branches (initial target rate : ℝ) :
    (initial ≤ target →
      ForgeCalculator.timeToReach initial target rate = .ok (.finite 0)) ∧
    (target < initial → target ≤ 0 →
      ForgeCalculator.timeToReach initial target rate = .ok .unbounded) ∧
    (target < initial → 0 < target → rate ≤ 0 →
      ForgeCalculator.timeToReach initial target rate =
        .error ("Rate constant must be positive")) ∧
    (target < initial → 0 < target → 0 < rate →
      ForgeCalculator.timeToReach initial target rate =
        .ok (.finite (Real.log (initial / target) / rate))) := by
  unfold ForgeCalculator.timeToReach
  refine ⟨fun h1 => ?_, fun h1 h2 => ?_, fun h1 h2 h3 => ?_, fun h1 h2 h3 => ?_⟩
  · rw [if_pos h1]
  · rw [if_neg (not_le.mpr h1), if_pos h2]
  · rw [if_neg (not_le.mpr h1), if_neg (not_le.mpr h2), if_pos h3]
  · rw [if_neg (not_le.mpr h1), if_neg (not_le.mpr h2),
      if_neg (not_le.mpr h3)]

/-- Witness for C2 at `initial = 100`, `target = 50`, `rate = 0`: the third
branch fires, so the nonpositive rate is rejected. -/
theorem c2_witness :
    (50 : ℝ) < 100 ∧ (0 : ℝ) < 50 ∧ (0 : ℝ) ≤ 0 ∧
    ForgeCalculator.timeToReach 100 50 0 =
      .error ("Rate constant must be positive") :=
  ⟨by norm_num, by norm_num, le_refl 0,
    (c2_timeToReach_branches 100 50 0).2.2.1 (by norm_num) (by norm_num)
      (le_refl 0)⟩

/-- C8: for every `halfLife > 0` the round trip
`rateToHalfLife(halfLifeToRate(halfLife))` recovers `halfLife` exactly
(over the reals the floating-point tolerance is not needed), both
conversions compute `ln 2` divided by their argument, and each throws
exactly when its argument is nonpositive. -/
theorem c8_halfLife_roundTrip (x : ℝ) :
    (x ≤ 0 →
      ForgeCalculator.halfLifeToRate x = .error ("Half-life must be positive") ∧
      ForgeCalculator.rateToHalfLife x =
        .error ("Rate constant must be positive")) ∧
    (0 < x →
      ForgeCalculator.halfLifeToRate x = .ok (Real.log 2 / x) ∧
      ForgeCalculator.rateToHalfLife x = .ok (Real.log 2 / x) ∧
      (ForgeCalculator.halfLifeToRate x).bind ForgeCalculator.rateToHalfLife =
        .ok x) := by
  constructor
  · intro hx
    unfold ForgeCalculator.halfLifeToRate ForgeCalculator.rateToHalfLife
    rw [if_pos hx, if_pos hx]
    exact ⟨rfl, rfl⟩
  · intro hx
    have hlog : (0 : ℝ) < Real.log 2 := Real.log_pos (by norm_num)
    have hrate : 0 < Real.log 2 / x := div_pos hlog hx
    refine ⟨ForgeCalculator.halfLifeToRate_ok hx,
      ForgeCalculator.rateToHalfLife_ok hx, ?_⟩
    rw [ForgeCalculator.halfLifeToRate_ok hx]
    show ForgeCalculator.rateToHalfLife (Real.log 2 / x) = .ok x
    rw [ForgeCalculator.rateToHalfLife_ok hrate]
    congr 1
    rw [div_div_eq_mul_div, mul_comm, mul_div_assoc, div_self (ne_of_gt hlog),
      mul_one]

/-- Witness for C8 at `halfLife = 5`: the round trip through both
conversions returns 5. -/
theorem c8_witness :
    (0 : ℝ) < 5 ∧
    (ForgeCalculator.halfLifeToRate 5).bind ForgeCalculator.rateToHalfLife =
      .ok 5 :=
  ⟨by norm_num, ((c8_halfLife_roundTrip 5).2 (by norm_num)).2.2⟩

/-- C3, amended: `addDose` performs no validation at all — for every amount,
negative ones included, it appends exactly one event carrying that amount
unchanged to the event log, returns it, and never fails; the configuration
fields are untouched. -/
theorem c3_addDose_appends (f : CaffeineForge) (dose time : ℝ)
    (source : String) :
    (f.addDose dose time source).2 = ⟨dose, time, source⟩ ∧
    (f.addDose dose time source).1.state.caffeineHistory =
      f.state.caffeineHistory ++ [⟨dose, time, source⟩] ∧
    (f.addDose dose time source).1.volumeDistribution =
      f.volumeDistribution ∧
    (f.addDose dose time source).1.state.rateConstant =
      f.state.rateConstant :=
  ⟨rfl, rfl, rfl, rfl⟩

/-- Counterexample to C3 as stated: `addDose(-50, 0, "coffee")` on a fresh
tracker does not fail with `InvalidArgument` — the negative dose is appended
to the event log, which is therefore not left unchanged. -/
theorem c3_counterexample :
    (CaffeineForge.init.addDose (-50) 0 "coffee").1.state.caffeineHistory =
      [⟨-50, 0, "coffee"⟩] ∧
    (CaffeineForge.init.addDose (-50) 0 "coffee").1.state.caffeineHistory ≠
      CaffeineForge.init.state.caffeineHistory := by
  constructor
  · rfl
  · intro h
    rw [CaffeineForge.init_state_history] at h
    simp [CaffeineForge.addDose, CaffeineForge.init_state_history] at h

theorem dosingLoop_zero_interval (b : ℝ) :
    ∀ (fuel : ℕ) (acc : List CaffeineForge.ScheduleEntry),
      CaffeineForge.dosingLoop 0 8 b fuel 0 acc = none := by
  intro fuel
  induction fuel with
  | zero =>
    intro acc
    rw [CaffeineForge.dosingLoop, if_pos (by norm_num : (0 : ℝ) < 8)]
  | succ n ih =>
    intro acc
    rw [CaffeineForge.dosingLoop, if_pos (by norm_num : (0 : ℝ) < 8),
      add_zero]
    exact ih _

/-- C4 is false of the code: on the default tracker (70 kg, typical rate,
distribution volume 42), `optimizeDosing(100, 8, 200)` — the exact call of
the repository's own test 11 — computes `redoseInterval =
timeToReach(200/42, 70, k) = 0` because the capped initial concentration is
already below the 70% redose threshold, and the `while (currentTime <
duration)` loop then advances `currentTime` by 0 forever. For every
iteration budget the loop is still running, so the call never completes. -/
theorem c4_optimizeDosing_diverges (fuel : ℕ) :
    CaffeineForge.init.optimizeDosing 100 8 200 fuel = .ok none := by
  have hvd : CaffeineForge.init.volumeDistribution =
      70 * CaffeineForge.VD_PER_KG := rfl
  have hmin : min (100 * CaffeineForge.init.volumeDistribution) 200 =
      (200 : ℝ) := by
    rw [hvd]
    rw [min_eq_right (by norm_num [CaffeineForge.VD_PER_KG])]
  have htr : ForgeCalculator.timeToReach
      (min (100 * CaffeineForge.init.volumeDistribution) 200 /
        CaffeineForge.init.volumeDistribution)
      (100 * 0.7) CaffeineForge.init.state.rateConstant =
      .ok (.finite 0) := by
    rw [hmin, hvd]
    unfold ForgeCalculator.timeToReach
    rw [if_pos (by norm_num [CaffeineForge.VD_PER_KG])]
  simp only [CaffeineForge.optimizeDosing]
  rw [htr]
  exact congrArg Except.ok (dosingLoop_zero_interval _ fuel _)

namespace ForgeCalculator

theorem curvePoint_ok {initial rate dt : ℝ} (hi : 0 ≤ initial)
    (hr : 0 < rate) (hdt : 0 ≤ dt) (i : ℕ) :
    curvePoint initial rate dt i = .ok (curveSample initial rate dt i) := by
  simp only [curvePoint, curveSample]
  rw [calculate_ok hi hr.le (mul_nonneg (Nat.cast_nonneg i) hdt), ok_bind,
    rateToHalfLife_ok hr, ok_bind]
  rfl

theorem curveLoop_ok {initial rate dt : ℝ} (hi : 0 ≤ initial)
    (hr : 0 < rate) (hdt : 0 ≤ dt) :
    ∀ l : List ℕ, curveLoop initial rate dt l =
      .ok (l.map (curveSample initial rate dt)) := by
  intro l
  induction l with
  | nil => rfl
  | cons i rest ih =>
    rw [curveLoop, curvePoint_ok hi hr hdt i, ok_bind, ih, ok_bind]
    rfl

end ForgeCalculator

/-- C5, amended with the hypothesis `rate > 0` that the code forces: for
every `initial ≥ 0`, `rate > 0`, `duration > 0` and `steps ≥ 1`,
`generateCurve(initial, rate, duration, steps)` returns exactly `steps+1`
points at uniform spacing `dt = duration/steps`, whose times cover
`[0, duration]` inclusive of both ends, whose first value is `initial`, and
whose values are monotonically non-increasing across the sequence. -/
theorem c5_generateCurve (initial rate duration : ℝ) (steps : ℕ)
    (hi : 0 ≤ initial) (hr : 0 < rate) (hdur : 0 < duration)
    (hs : 1 ≤ steps) :
    ∃ pts : List ForgeCalculator.CurvePoint,
      ForgeCalculator.generateCurve initial rate duration steps = .ok pts ∧
      pts.length = steps + 1 ∧
      pts.map ForgeCalculator.CurvePoint.time =
        (List.range (steps + 1)).map
          (fun i : ℕ => (i : ℝ) * (duration / steps)) ∧
      (pts.map ForgeCalculator.CurvePoint.time).head? = some 0 ∧
      (pts.map ForgeCalculator.CurvePoint.time).getLast? = some duration ∧
      (pts.map ForgeCalculator.CurvePoint.value).head? = some initial ∧
      List.Chain' (fun p q => q.value ≤ p.value) pts := by
  have hdt : 0 ≤ duration / (steps : ℝ) :=
    div_nonneg hdur.le (Nat.cast_nonneg steps)
  have hs0 : ((steps : ℝ)) ≠ 0 := Nat.cast_ne_zero.mpr (by omega)
  refine ⟨(List.range (steps + 1)).map
      (ForgeCalculator.curveSample initial rate (duration / steps)),
    ForgeCalculator.curveLoop_ok hi hr hdt (List.range (steps + 1)),
    ?_, ?_, ?_, ?_, ?_, ?_⟩
  · simp
  · rw [List.map_map]
    rfl
  · rw [List.map_map, List.range_succ_eq_map, List.map_cons,
      List.head?_cons]
    show some (((0 : ℕ) : ℝ) * (duration / steps)) = some 0
    norm_num
  · rw [List.map_map, List.range_succ, List.map_append, List.map_cons,
      List.map_nil, List.getLast?_concat]
    show some ((steps : ℝ) * (duration / steps)) = some duration
    rw [mul_comm, div_mul_cancel₀ duration hs0]
  · rw [List.map_map, List.range_succ_eq_map, List.map_cons,
      List.head?_cons]
    show some (initial * Real.exp (-rate * (((0 : ℕ) : ℝ) *
      (duration / steps)))) = some initial
    norm_num
  · rw [List.chain'_map]
    refine (List.chain'_range_succ _ steps).mpr fun m _ => ?_
    show initial * Real.exp (-rate * ((m + 1 : ℕ) * (duration / steps))) ≤
      initial * Real.exp (-rate * ((m : ℕ) * (duration / steps)))
    refine mul_le_mul_of_nonneg_left (Real.exp_le_exp.mpr ?_) hi
    have h1 : ((m : ℕ) : ℝ) * (duration / steps) ≤
        ((m + 1 : ℕ) : ℝ) * (duration / steps) := by
      refine mul_le_mul_of_nonneg_right ?_ hdt
      exact_mod_cast Nat.le_succ m
    rw [neg_mul, neg_mul]
    exact neg_le_neg (mul_le_mul_of_nonneg_left h1 hr.le)

/-- Counterexample to C5 as stated (with `rate` unconstrained): at
`initial = 100 ≥ 0`, `rate = 0`, `duration = 24 > 0`, `steps = 1 ≥ 1` the
call does not return `steps+1` points — the in-loop `rateToHalfLife(0)`
throws on the very first point. -/
theorem c5_counterexample :
    ForgeCalculator.generateCurve 100 0 24 1 =
      .error ("Rate constant must be positive") := by
  unfold ForgeCalculator.generateCurve
  rw [show List.range 2 = [0, 1] from rfl, ForgeCalculator.curveLoop]
  simp only [ForgeCalculator.curvePoint]
  rw [ForgeCalculator.calculate_ok (by norm_num) (le_refl (0 : ℝ))
    (by norm_num), ok_bind]
  unfold ForgeCalculator.rateToHalfLife
  rw [if_pos (le_refl (0 : ℝ))]
  rfl

/-- Witness for C5 at `initial = 100`, `rate = 1`, `duration = 24`,
`steps = 2`: the curve is produced with 3 points. -/
theorem c5_witness :
    (0 : ℝ) ≤ 100 ∧ (0 : ℝ) < 1 ∧ (0 : ℝ) < 24 ∧ 1 ≤ 2 ∧
    ∃ pts, ForgeCalculator.generateCurve 100 1 24 2 = .ok pts ∧
      pts.length = 3 := by
  obtain ⟨pts, h1, h2, -⟩ := c5_generateCurve 100 1 24 2 (by norm_num)
    (by norm_num) (by norm_num) (by norm_num)
  exact ⟨by norm_num, by norm_num, by norm_num, by norm_num, pts, h1, h2⟩

theorem SOURCES_ne_zero (s : String) (d : ℝ)
    (h : CaffeineForge.SOURCES s = some d) : d ≠ 0 := by
  unfold CaffeineForge.SOURCES at h
  split_ifs at h <;>
    first
      | exact Option.noConfusion h
      | (obtain rfl := (Option.some.inj h).symm; norm_num)

/-- C6 is false of the code: `addBySource` rejects a name only when the
property access is falsy. A name whose lookup is `undefined` does throw the
unknown-source error with the tracker unchanged, and a registered source
does append `unitAmount * servings`; but an unregistered name inherited
from `Object.prototype` — `"toString"` here — yields a truthy inherited
function, the throw is skipped, and one event whose dose is the JS `NaN`
product (quantified here as every possible stand-in `nanProduct`) is
appended to the log: the call neither fails nor leaves the log unmutated. -/
theorem c6_addBySource_prototype_leak (f : CaffeineForge) (source : String)
    (servings time nanProduct : ℝ) :
    (CaffeineForge.sourceLookup source = .absent →
      f.addBySource source servings time nanProduct =
        (f, .error ("Unknown caffeine source: " ++ source))) ∧
    (∀ d, CaffeineForge.SOURCES source = some d →
      (f.addBySource source servings time nanProduct).1.state.caffeineHistory
        = f.state.caffeineHistory ++ [⟨d * servings, time, source⟩] ∧
      (f.addBySource source servings time nanProduct).2 =
        .ok ⟨d * servings, time, source⟩) ∧
    (CaffeineForge.sourceLookup "toString" = .protoFn ∧
      (f.addBySource "toString" servings time nanProduct).2 =
        .ok ⟨nanProduct, time, "toString"⟩ ∧
      (f.addBySource "toString" servings time
          nanProduct).1.state.caffeineHistory =
        f.state.caffeineHistory ++ [⟨nanProduct, time, "toString"⟩]) := by
  refine ⟨?_, ?_, rfl, ?_, ?_⟩
  · intro h
    simp [CaffeineForge.addBySource, h]
  · intro d h
    have hd : d ≠ 0 := SOURCES_ne_zero source d h
    have hl : CaffeineForge.sourceLookup source = .mg d := by
      unfold CaffeineForge.sourceLookup
      rw [h]
    refine ⟨?_, ?_⟩ <;>
      simp [CaffeineForge.addBySource, hl, hd, CaffeineForge.addDose]
  · rfl
  · rfl

/-- C7, amended to the truthiness semantics the code implements: after an
`updateConfig` call whose supplied body weight (if any) is nonzero and whose
supplied metabolism profile (if any) is a non-empty string, `rateConstant`
and `volumeDistribution` are consistent with the then-current profile and
body weight. (A falsy update value — body weight 0 or an empty profile
string — is merged into the state by `Object.assign` but skips the
recomputation, which the counterexample exhibits.) -/
theorem c7_updateConfig_consistent (f : CaffeineForge)
    (c : CaffeineForge.ConfigUpdate)
    (hf : CaffeineForge.Consistent f)
    (hbw : ∀ bw, c.bodyWeight = some bw → bw ≠ 0)
    (hmr : ∀ m, c.metabolismRate = some m → m ≠ "") :
    CaffeineForge.Consistent (f.updateConfig c) := by
  obtain ⟨h1, h2⟩ := hf
  obtain ⟨obw, omr⟩ := c
  cases obw with
  | none =>
    cases omr with
    | none => exact ⟨h1, h2⟩
    | some m =>
      have hm : m ≠ "" := hmr m rfl
      simp only [CaffeineForge.updateConfig, CaffeineForge.Consistent]
      rw [if_neg hm]
      exact ⟨rfl, h2⟩
  | some bw =>
    have hb : bw ≠ 0 := hbw bw rfl
    cases omr with
    | none =>
      simp only [CaffeineForge.updateConfig, CaffeineForge.Consistent]
      rw [if_neg hb]
      exact ⟨h1, rfl⟩
    | some m =>
      have hm : m ≠ "" := hmr m rfl
      simp only [CaffeineForge.updateConfig, CaffeineForge.Consistent]
      rw [if_neg hb, if_neg hm]
      exact ⟨rfl, rfl⟩

/-- Counterexample to C7 as stated: the fresh tracker is consistent, but
`updateConfig({bodyWeight: 0})` merges body weight 0 into the state while
the falsy-guarded recomputation is skipped, leaving `volumeDistribution` at
its old value 42 — stale derived state is observable. -/
theorem c7_counterexample :
    CaffeineForge.Consistent CaffeineForge.init ∧
    (CaffeineForge.init.updateConfig ⟨some 0, none⟩).state.bodyWeight = 0 ∧
    ¬CaffeineForge.Consistent
      (CaffeineForge.init.updateConfig ⟨some 0, none⟩) := by
  refine ⟨⟨rfl, rfl⟩, rfl, ?_⟩
  rintro ⟨-, h2⟩
  simp only [CaffeineForge.updateConfig] at h2
  rw [if_pos trivial] at h2
  rw [CaffeineForge.init_vd] at h2
  norm_num [CaffeineForge.VD_PER_KG] at h2

/-- Witness for C7: starting from the consistent fresh tracker, updating the
body weight to 80 (truthy) keeps the derived fields consistent. -/
theorem c7_witness :
    CaffeineForge.Consistent CaffeineForge.init ∧
    CaffeineForge.Consistent
      (CaffeineForge.init.updateConfig ⟨some 80, none⟩) := by
  have h0 : CaffeineForge.Consistent CaffeineForge.init := ⟨rfl, rfl⟩
  refine ⟨h0, c7_updateConfig_consistent CaffeineForge.init ⟨some 80, none⟩
    h0 ?_ ?_⟩
  · intro bw hb
    obtain rfl := (Option.some.inj hb).symm
    norm_num
  · intro m hm
    exact Option.noConfusion hm

/-- C9: `importState(blob)` with an unrecognized version tag is a complete
no-op — the tracker (configuration, event log, derived fields) is returned
unchanged — while with the recognized tag `"1.0"` it installs the saved
state wholesale and re-establishes derived-field consistency by recomputing
`rateConstant` and `volumeDistribution`; there is no partial application. -/
theorem c9_importState (f : CaffeineForge)
    (saved : CaffeineForge.SavedState) :
    (saved.version ≠ "1.0" → f.importState saved = f) ∧
    (saved.version = "1.0" →
      CaffeineForge.Consistent (f.importState saved) ∧
      (f.importState saved).state.caffeineHistory =
        saved.state.caffeineHistory ∧
      (f.importState saved).state.bodyWeight = saved.state.bodyWeight ∧
      (f.importState saved).state.metabolismRate =
        saved.state.metabolismRate ∧
      (f.importState saved).state.currentLevel =
        saved.state.currentLevel) := by
  constructor
  · intro h
    unfold CaffeineForge.importState
    rw [if_neg h]
  · intro h
    unfold CaffeineForge.importState
    rw [if_pos h]
    exact ⟨⟨rfl, rfl⟩, rfl, rfl, rfl, rfl⟩

/-- Witness for C9: version `"2.0"` leaves the fresh tracker untouched;
version `"1.0"` restores a saved state and yields a consistent tracker. -/
theorem c9_witness :
    ("2.0" : String) ≠ "1.0" ∧
    CaffeineForge.init.importState ⟨"2.0", CaffeineForge.init.state, 0⟩ =
      CaffeineForge.init ∧
    CaffeineForge.Consistent
      (CaffeineForge.init.importState
        ⟨"1.0", CaffeineForge.init.state, 0⟩) := by
  have hv : ("2.0" : String) ≠ "1.0" := by decide
  exact ⟨hv,
    (c9_importState CaffeineForge.init
      ⟨"2.0", CaffeineForge.init.state, 0⟩).1 hv,
    ((c9_importState CaffeineForge.init
      ⟨"1.0", CaffeineForge.init.state, 0⟩).2 rfl).1⟩

theorem sleepThresholdOf_some_zero :
    CaffeineForge.sleepThresholdOf (some 0) =
      CaffeineForge.THRESHOLD_SLEEP := by
  show (if (0 : ℝ) = 0 then CaffeineForge.THRESHOLD_SLEEP else 0) =
    CaffeineForge.THRESHOLD_SLEEP
  rw [if_pos rfl]

/-- C10: `getTimeUntilSleep(0, fromTime)` does not treat 0 as the
threshold — the falsy argument is replaced by the 10 mg default, so the
call behaves exactly like the no-argument call; whenever the current level
is at most 10 it answers `hours = 0`, `canSleepNow = true` even though the
level may strictly exceed the requested threshold 0; and above 10 the
`timeToReach` delegation takes the finite branch (never the `Infinity`
branch for nonpositive targets). -/
theorem c10_getTimeUntilSleep_zero_threshold (f : CaffeineForge)
    (fromTime : ℝ) :
    (f.getTimeUntilSleep (some 0) fromTime =
      f.getTimeUntilSleep none fromTime) ∧
    (∀ (f1 : CaffeineForge) (L : ℝ),
      f.getCurrentLevel fromTime = .ok (f1, L) →
      (L ≤ 10 →
        f.getTimeUntilSleep (some 0) fromTime =
          .ok (f1, ⟨.finite 0, some fromTime, true, L⟩)) ∧
      (10 < L → 0 < f1.state.rateConstant →
        f.getTimeUntilSleep (some 0) fromTime =
          .ok (f1, ⟨.finite (Real.log (L / 10) / f1.state.rateConstant),
            some (fromTime +
              Real.log (L / 10) / f1.state.rateConstant * 3600000),
            false, L⟩))) := by
  constructor
  · unfold CaffeineForge.getTimeUntilSleep
    rw [sleepThresholdOf_some_zero]
    rfl
  · intro f1 L h
    constructor
    · intro hL
      have hL' : L ≤ CaffeineForge.THRESHOLD_SLEEP := hL
      unfold CaffeineForge.getTimeUntilSleep
      rw [sleepThresholdOf_some_zero, h, ok_bind, if_pos hL']
      rfl
    · intro hL hk
      have hL' : ¬(L ≤ CaffeineForge.THRESHOLD_SLEEP) := not_le.mpr hL
      have htr : ForgeCalculator.timeToReach L
          CaffeineForge.THRESHOLD_SLEEP f1.state.rateConstant =
          .ok (.finite (Real.log (L / 10) / f1.state.rateConstant)) := by
        unfold ForgeCalculator.timeToReach CaffeineForge.THRESHOLD_SLEEP
        rw [if_neg (not_le.mpr hL), if_neg (by norm_num : ¬(10 : ℝ) ≤ 0),
          if_neg (not_le.mpr hk)]
      unfold CaffeineForge.getTimeUntilSleep
      rw [sleepThresholdOf_some_zero, h, ok_bind, if_neg hL', htr, ok_bind]
      rfl

/-- Witness for C10: the fresh tracker at level 0 with requested threshold 0
reports it can sleep now — because the threshold actually used is 10. -/
theorem c10_witness :
    CaffeineForge.init.getCurrentLevel 0 = .ok (CaffeineForge.init, 0) ∧
    (0 : ℝ) ≤ 10 ∧
    CaffeineForge.init.getTimeUntilSleep (some 0) 0 =
      .ok (CaffeineForge.init, ⟨.finite 0, some 0, true, 0⟩) := by
  have h : CaffeineForge.init.getCurrentLevel 0 =
      .ok (CaffeineForge.init, 0) := rfl
  exact ⟨h, by norm_num,
    ((c10_getTimeUntilSleep_zero_threshold CaffeineForge.init 0).2
      CaffeineForge.init 0 h).1 (by norm_num)⟩

end Forge

end
